import Mathlib

/-!
Verification of the benchmarking-scripts pipeline.

The repository holds two near-duplicate Python scripts,
`extract_metrics.py` (class `SasquatchBenchmarkProcessor`, list-based
sample collection) and `metrics.py` (class `MetricsProcessor`, map-based
sample collection).  Each script:

1. reads required configuration from environment variables,
2. parses a `--metric` command-line argument,
3. streams the benchmark-results JSON document, filters the benchmark
   entries whose `stats` mapping contains the requested metric key, and
   projects each surviving entry to `(name, float(stats[metric]))`,
4. inside a single `try/except` block: fetches the Kafka cluster id,
   creates the Kafka topic if it does not exist, and emits one data point
   per collected sample; any exception from that block is printed and
   swallowed, so the process exits 0.

We embed the scripts shallowly.  JSON numeric values that `float(...)`
accepts are carried as rationals (no floating-point arithmetic is
performed by the scripts: the parsed value is passed through unchanged to
the emitter, so `ℚ` is a faithful carrier).  Effects (file read, the
three HTTP interactions, per-sample emission) are supplied as an
environment record describing the outcome the outside world would give,
and each `start` is a pure function from that environment to an observable
run result (exit code, printed-and-swallowed error, number of topic-create
requests, number of emission attempts).
-/

/-- Errors a Python run can raise.  `exc msg` is a `raise Exception(msg)`. -/
inductive PyError where
  | keyError (key : String)   -- failed dict / `os.environ` lookup
  | ioError                   -- missing input file
  | parseError                -- malformed JSON document
  | valueError                -- `float(...)` coercion failure
  | requestError              -- transport-level failure of an HTTP call
  | indexError                -- e.g. empty cluster list in `get_kafka_cluster_id`
  | exc (msg : String)
deriving DecidableEq, Repr

/-- A value found in a benchmark entry's `stats` mapping: either a JSON
number (on which Python's `float` succeeds, yielding that value) or a
value on which `float` raises. -/
inductive StatValue where
  | num (q : ℚ)
  | nonNumeric
deriving DecidableEq, Repr

/-- `float(v)` for a stats value: the numeric value, or failure. -/
def floatOfStat : StatValue → Option ℚ
  | .num q => some q
  | .nonNumeric => none

/-- One benchmark entry of the results document:
`{name: string, stats: mapping from metric-name to value}`.  The `stats`
association list models the parsed JSON object (keys unique). -/
structure BenchmarkRecord where
  name : String
  stats : List (String × StatValue)
deriving DecidableEq, Repr

/-- Python `metric in module["stats"].keys()`.  The metric is an
`Option String` because `argparse` yields `None` when the optional
`--metric` flag is absent; `None` never equals a string key. -/
def hasMetric (metric : Option String) (stats : List (String × StatValue)) : Bool :=
  stats.any (fun p => metric == some p.1)

/-- Python `module["stats"][metric]` (`none` models the `KeyError` case). -/
def lookupStat (metric : Option String) : List (String × StatValue) → Option StatValue
  | [] => none
  | (k, v) :: rest => if metric == some k then some v else lookupStat metric rest

/-- The list/dict comprehension body applied entrywise:
`(module["name"], float(module["stats"][metric]))` for each module, failing
with the Python error the comprehension would raise. -/
def pairsOf (metric : Option String) : List BenchmarkRecord → Except PyError (List (String × ℚ))
  | [] => .ok []
  | r :: rs =>
    match lookupStat metric r.stats with
    | none => .error (.keyError (toString metric))
    | some sv =>
      match floatOfStat sv with
      | none => .error .valueError
      | some q =>
        match pairsOf metric rs with
        | .error e => .error e
        | .ok l => .ok ((r.name, q) :: l)

/-- Python dict assignment `d[k] = v`: overwrite the value at an existing
key in place, else append the new binding. -/
def dictInsert : List (String × ℚ) → String → ℚ → List (String × ℚ)
  | [], k, v => [(k, v)]
  | (k0, v0) :: d, k, v =>
    if k0 == k then (k0, v) :: d else (k0, v0) :: dictInsert d k v

/-- Python dict comprehension `{p[0]: p[1] for p in l}` (later duplicate
keys overwrite earlier ones), as an insertion-ordered association list. -/
def buildDict (l : List (String × ℚ)) : List (String × ℚ) :=
  l.foldl (fun d p => dictInsert d p.1 p.2) []

/-- Python dict lookup on an insertion-ordered association list. -/
def lookupDict (d : List (String × ℚ)) (k : String) : Option ℚ :=
  (d.find? (fun p => p.1 == k)).map Prod.snd

/-- The status check of `check_if_topic_exists` (extract_metrics.py):
`requests.get(...).status_code == 200`. -/
def check_if_topic_exists (statusCode : Nat) : Bool :=
  statusCode == 200

/-- The status check of `check_if_kafka_topic_exists` (metrics.py):
`response.status_code == 200`. -/
def check_if_kafka_topic_exists (statusCode : Nat) : Bool :=
  statusCode == 200

/-- `create_kafka_topic` (identical in both scripts), as a function of the
outcome of the existence GET and of the creation POST.  Returns the number
of create (POST) requests issued and the error raised, if any:
if the topic exists, return without posting; otherwise post, succeed on
status 200/201, and raise on any other status. -/
def create_kafka_topic (existsOutcome : Except PyError Nat)
    (createOutcome : Except PyError Nat) : Nat × Option PyError :=
  match existsOutcome with
  | .error e => (0, some e)
  | .ok st =>
    if check_if_topic_exists st then
      (0, none)
    else
      match createOutcome with
      | .error e => (1, some e)
      | .ok cst =>
        if cst == 200 || cst == 201 then (1, none)
        else (1, some (.exc "Could not create Kafka topic!"))

/-- The emission loop of `post_results_to_sasquatch` /
`submit_results_to_sasquatch`: one synchronous `emitter.emit()` per sample,
in order; the outcome of the i-th attempt is `emitOutcome i`.  Returns the
number of emissions attempted and the first error (which aborts the rest). -/
def emitAll (emitOutcome : Nat → Except PyError Unit) :
    List (String × ℚ) → Nat → Nat × Option PyError
  | [], _ => (0, none)
  | _ :: rest, i =>
    match emitOutcome i with
    | .error e => (1, some e)
    | .ok _ =>
      match emitAll emitOutcome rest (i + 1) with
      | (n, r) => (n + 1, r)

/-- Observable outcome of one run of a script. -/
structure RunResult where
  exitCode : Nat
  printed : Option PyError   -- the error printed and swallowed by the handler
  createRequests : Nat       -- topic-create POSTs issued
  emissions : Nat            -- emission attempts
deriving DecidableEq, Repr

namespace SasquatchBenchmarkProcessor

/-- Outside-world outcomes for one run of `extract_metrics.py`. -/
structure Env where
  kafkaApiUrl : Option String                           -- os.environ["KAFKA_API_URL"]
  metricArg : Option String                             -- `--metric` value (optional flag)
  benchmarksFile : Except PyError (List BenchmarkRecord) -- open + ijson parse of benchmarks/output.json
  clusterIdOutcome : Except PyError String              -- get_kafka_cluster_id
  topicGetOutcome : Except PyError Nat                  -- status of GET /topics/{topic_name}
  createPostOutcome : Except PyError Nat                -- status of POST .../topics
  emitOutcome : Nat → Except PyError Unit               -- i-th emitter.emit()

/-- `parse_cmd_args` of extract_metrics.py: the `--metric` argument is
optional, so its absence yields `None`. -/
def parse_cmd_args (env : Env) : Option String :=
  env.metricArg

/-- `collect_metric_values` of extract_metrics.py: read the document,
filter the entries whose `stats` contains the metric key, and build
the list `[(module["name"], float(module["stats"][metric])) ...]`. -/
def collect_metric_values (file : Except PyError (List BenchmarkRecord))
    (metric : Option String) : Except PyError (List (String × ℚ)) :=
  match file with
  | .error e => .error e
  | .ok doc => pairsOf metric (doc.filter (fun r => hasMetric metric r.stats))

/-- `start` of extract_metrics.py: environment lookup at `__init__`,
argument parsing, extraction (uncaught), then the guarded publish block
whose exception is printed and swallowed.  An uncaught Python exception
makes the process exit 1; a normal return exits 0. -/
def start (env : Env) : RunResult :=
  match env.kafkaApiUrl with
  | none => ⟨1, none, 0, 0⟩                 -- KeyError in __init__, uncaught
  | some _ =>
    match collect_metric_values env.benchmarksFile (parse_cmd_args env) with
    | .error _ => ⟨1, none, 0, 0⟩           -- extraction failure, uncaught
    | .ok samples =>
      match env.clusterIdOutcome with
      | .error e => ⟨0, some e, 0, 0⟩       -- caught by the handler
      | .ok _ =>
        match create_kafka_topic env.topicGetOutcome env.createPostOutcome with
        | (n, some e) => ⟨0, some e, n, 0⟩  -- caught by the handler
        | (n, none) =>
          match emitAll env.emitOutcome samples 0 with
          | (k, r) => ⟨0, r, n, k⟩          -- emission error, if any, is caught

end SasquatchBenchmarkProcessor

namespace MetricsProcessor

/-- Outside-world outcomes for one run of `metrics.py`. -/
structure Env where
  sasquatchRestProxyUrl : Option String                  -- os.environ["SASQUATCH_REST_PROXY_URL"]
  projectName : Option String                            -- os.environ["PROJECT_NAME"]
  metricArg : Option String                              -- `--metric` value (required flag)
  benchmarksFile : Except PyError (List BenchmarkRecord)
  clusterIdOutcome : Except PyError String
  topicGetOutcome : Except PyError Nat
  createPostOutcome : Except PyError Nat
  emitOutcome : Nat → Except PyError Unit

/-- `parse_cmdline_args` of metrics.py: `--metric` is required; `argparse`
exits the process with code 2 when it is absent. -/
def parse_cmdline_args (env : Env) : Except Nat String :=
  match env.metricArg with
  | none => .error 2
  | some m => .ok m

/-- `extract_metric_values` of metrics.py: same filter and projection as
the list variant, but collected into a dict keyed by module name
(`{module["name"]: float(module["stats"][metric]) for module in modules}`). -/
def extract_metric_values (file : Except PyError (List BenchmarkRecord))
    (metric : String) : Except PyError (List (String × ℚ)) :=
  match file with
  | .error e => .error e
  | .ok doc =>
    match pairsOf (some metric) (doc.filter (fun r => hasMetric (some metric) r.stats)) with
    | .error e => .error e
    | .ok pairs => .ok (buildDict pairs)

/-- `start` of metrics.py: the two environment variables are read at class
definition time (before anything else), then the required `--metric`
argument is parsed, then extraction (uncaught), then the guarded publish
block whose exception is printed and swallowed. -/
def start (env : Env) : RunResult :=
  match env.sasquatchRestProxyUrl, env.projectName with
  | none, _ => ⟨1, none, 0, 0⟩              -- KeyError at import time, uncaught
  | some _, none => ⟨1, none, 0, 0⟩
  | some _, some _ =>
    match parse_cmdline_args env with
    | .error code => ⟨code, none, 0, 0⟩     -- argparse: SystemExit(2)
    | .ok metric =>
      match extract_metric_values env.benchmarksFile metric with
      | .error _ => ⟨1, none, 0, 0⟩         -- extraction failure, uncaught
      | .ok samples =>
        match env.clusterIdOutcome with
        | .error e => ⟨0, some e, 0, 0⟩
        | .ok _ =>
          match create_kafka_topic env.topicGetOutcome env.createPostOutcome with
          | (n, some e) => ⟨0, some e, n, 0⟩
          | (n, none) =>
            match emitAll env.emitOutcome samples 0 with
            | (k, r) => ⟨0, r, n, k⟩

end MetricsProcessor

/-- Backend model for topic provisioning: the per-topic GET returns 200
when the topic is present and 404 otherwise. -/
def backendTopicStatus (present : Bool) : Nat :=
  if present then 200 else 404

/-- One provisioner run of `create_kafka_topic` against a backend where
the topic is present iff `present` and the create POST would return
`createResp`; a successful create makes the topic present.  Returns the
new backend state and the number of create requests issued. -/
def provisionRun (present : Bool) (createResp : Nat) : Bool × Nat :=
  match create_kafka_topic (.ok (backendTopicStatus present)) (.ok createResp) with
  | (n, none) => (present || n == 1, n)
  | (n, some _) => (present, n)

/-! ### Helper lemmas about extraction -/

/-- A successful comprehension yields one pair per input entry. -/
theorem pairsOf_length (m : Option String) :
    ∀ (rs : List BenchmarkRecord) (l : List (String × ℚ)),
      pairsOf m rs = .ok l → l.length = rs.length := by
  intro rs
  induction rs with
  | nil => intro l h; cases h; rfl
  | cons r rs ih =>
    intro l h
    unfold pairsOf at h
    split at h
    · cases h
    · split at h
      · cases h
      · split at h
        · cases h
        next l2 heq =>
          cases h
          simp [ih l2 heq]

/-- A successful dict-lookup implies key membership. -/
theorem lookupStat_hasMetric (m : Option String) :
    ∀ (stats : List (String × StatValue)) (sv : StatValue),
      lookupStat m stats = some sv → hasMetric m stats = true := by
  intro stats
  induction stats with
  | nil => intro sv h; cases h
  | cons p rest ih =>
    intro sv h
    unfold lookupStat at h
    by_cases hk : m == some p.1
    · simp [hasMetric, hk]
    · rw [if_neg hk] at h
      have := ih sv h
      simp [hasMetric] at this ⊢
      exact Or.inr this

/-- Every entry whose stats yields value sv with float q contributes
the pair (name, q) to a successful comprehension. -/
theorem pairsOf_mem (m : Option String) :
    ∀ (rs : List BenchmarkRecord) (l : List (String × ℚ)) (r : BenchmarkRecord)
      (sv : StatValue) (q : ℚ),
      r ∈ rs → lookupStat m r.stats = some sv → floatOfStat sv = some q →
      pairsOf m rs = .ok l → (r.name, q) ∈ l := by
  intro rs
  induction rs with
  | nil => intro l r sv q hr; cases hr
  | cons r0 rs ih =>
    intro l r sv q hr hsv hq h
    unfold pairsOf at h
    split at h
    · cases h
    next sv0 heq0 =>
      split at h
      · cases h
      next q0 heqq =>
        split at h
        · cases h
        next l2 heq2 =>
          cases h
          rcases List.mem_cons.mp hr with rfl | hmem
          · rw [hsv] at heq0
            cases heq0
            rw [hq] at heqq
            cases heqq
            exact List.mem_cons_self _ _
          · exact List.mem_cons_of_mem _ (ih l2 r sv q hmem hsv hq heq2)

/-- Every pair of a successful comprehension comes from some input entry,
with exactly that entry's name and coerced stat value. -/
theorem pairsOf_mem_inv (m : Option String) :
    ∀ (rs : List BenchmarkRecord) (l : List (String × ℚ)) (p : String × ℚ),
      pairsOf m rs = .ok l → p ∈ l →
      ∃ r, r ∈ rs ∧ p.1 = r.name ∧
        ∃ sv, lookupStat m r.stats = some sv ∧ floatOfStat sv = some p.2 := by
  intro rs
  induction rs with
  | nil => intro l p h hp; cases h; cases hp
  | cons r0 rs ih =>
    intro l p h hp
    unfold pairsOf at h
    split at h
    · cases h
    next sv0 heq0 =>
      split at h
      · cases h
      next q0 heqq =>
        split at h
        · cases h
        next l2 heq2 =>
          cases h
          rcases List.mem_cons.mp hp with rfl | hmem
          · exact ⟨r0, List.mem_cons_self _ _, rfl, sv0, heq0, heqq⟩
          · rcases ih l2 p heq2 hmem with ⟨r, hr, hn, sv, hsv, hq⟩
            exact ⟨r, List.mem_cons_of_mem _ hr, hn, sv, hsv, hq⟩

/-- `None` is never a key of a string-keyed stats mapping. -/
theorem hasMetric_none (stats : List (String × StatValue)) :
    hasMetric none stats = false := by
  induction stats with
  | nil => rfl
  | cons p rest ih => simp [hasMetric] at ih ⊢

/-! ### Helper lemmas about Python-dict building -/

/-- The value paired with the LAST occurrence of key `k` in `l` (the
duplicate-overwrite policy of a Python dict comprehension). -/
def lastValueIn (l : List (String × ℚ)) (k : String) : Option ℚ :=
  (l.reverse.find? (fun p => p.1 == k)).map Prod.snd

theorem lookupDict_dictInsert_self :
    ∀ (d : List (String × ℚ)) (k : String) (v : ℚ),
      lookupDict (dictInsert d k v) k = some v := by
  intro d
  induction d with
  | nil => intro k v; simp [dictInsert, lookupDict]
  | cons p d ih =>
    intro k v
    obtain ⟨k0, v0⟩ := p
    by_cases h : k0 == k
    · simp [dictInsert, h, lookupDict]
    · have := ih k v
      simp [lookupDict] at this
      simp [dictInsert, h, lookupDict, this]

theorem lookupDict_dictInsert_ne :
    ∀ (d : List (String × ℚ)) (k k2 : String) (v : ℚ), k2 ≠ k →
      lookupDict (dictInsert d k v) k2 = lookupDict d k2 := by
  intro d
  induction d with
  | nil =>
    intro k k2 v hne
    have h2 : (k == k2) = false := by simpa using Ne.symm hne
    simp [dictInsert, lookupDict, List.find?, h2]
  | cons p d ih =>
    intro k k2 v hne
    obtain ⟨k0, v0⟩ := p
    by_cases h : k0 == k
    · have hk0 : k0 = k := by simpa using h
      have h2 : (k0 == k2) = false := by
        simp [hk0]
        exact fun hh => absurd hh.symm hne
      simp [dictInsert, h, lookupDict, h2]
    · have := ih k k2 v hne
      simp [lookupDict] at this
      by_cases h2 : k0 == k2
      · simp [dictInsert, h, lookupDict, h2]
      · simp [dictInsert, h, lookupDict, h2, this]

theorem mem_keys_dictInsert :
    ∀ (d : List (String × ℚ)) (k a : String) (v : ℚ),
      (a ∈ (dictInsert d k v).map Prod.fst ↔ a ∈ d.map Prod.fst ∨ a = k) := by
  intro d
  induction d with
  | nil => intro k a v; simp [dictInsert]
  | cons p d ih =>
    intro k a v
    obtain ⟨k0, v0⟩ := p
    have ih2 := ih k a v
    by_cases h : k0 == k
    · have hk0 : k0 = k := by simpa using h
      simp [dictInsert, h, hk0]
      tauto
    · simp [dictInsert, h]
      simp at ih2
      tauto

theorem nodup_keys_dictInsert :
    ∀ (d : List (String × ℚ)) (k : String) (v : ℚ),
      (d.map Prod.fst).Nodup → ((dictInsert d k v).map Prod.fst).Nodup := by
  intro d
  induction d with
  | nil => intro k v _; simp [dictInsert]
  | cons p d ih =>
    intro k v hnd
    obtain ⟨k0, v0⟩ := p
    rw [List.map_cons, List.nodup_cons] at hnd
    by_cases h : k0 == k
    · have hmap : (dictInsert ((k0, v0) :: d) k v).map Prod.fst = k0 :: d.map Prod.fst := by
        simp [dictInsert, h]
      rw [hmap, List.nodup_cons]
      exact ⟨hnd.1, hnd.2⟩
    · have hk0 : k0 ≠ k := by simpa using h
      have hmap : (dictInsert ((k0, v0) :: d) k v).map Prod.fst
          = k0 :: (dictInsert d k v).map Prod.fst := by
        simp [dictInsert, h]
      rw [hmap, List.nodup_cons]
      refine ⟨fun hmem => ?_, ih k v hnd.2⟩
      rcases (mem_keys_dictInsert d k k0 v).mp hmem with hmem2 | heq
      · exact hnd.1 hmem2
      · exact hk0 heq

theorem mem_dictInsert_sub :
    ∀ (d : List (String × ℚ)) (k : String) (v : ℚ) (p : String × ℚ),
      p ∈ dictInsert d k v → p ∈ d ∨ p = (k, v) := by
  intro d
  induction d with
  | nil => intro k v p hp; simp [dictInsert] at hp; exact Or.inr hp
  | cons p0 d ih =>
    intro k v p hp
    obtain ⟨k0, v0⟩ := p0
    by_cases h : k0 == k
    · have hk0 : k0 = k := by simpa using h
      simp [dictInsert, h] at hp
      rcases hp with rfl | hmem
      · exact Or.inr (by rw [hk0])
      · exact Or.inl (List.mem_cons_of_mem _ hmem)
    · simp [dictInsert, h] at hp
      rcases hp with rfl | hmem
      · exact Or.inl (List.mem_cons_self _ _)
      · rcases ih k v p hmem with hd | hkv
        · exact Or.inl (List.mem_cons_of_mem _ hd)
        · exact Or.inr hkv

theorem buildDict_concat (l : List (String × ℚ)) (p : String × ℚ) :
    buildDict (l ++ [p]) = dictInsert (buildDict l) p.1 p.2 := by
  simp [buildDict, List.foldl_append]

/-- Dict lookup after a comprehension yields the LAST value bound to the
key among the input pairs (later duplicates overwrite earlier ones). -/
theorem lookupDict_buildDict (l : List (String × ℚ)) (k : String) :
    lookupDict (buildDict l) k = lastValueIn l k := by
  induction l using List.reverseRecOn with
  | nil => rfl
  | append_singleton l p ih =>
    rw [buildDict_concat]
    by_cases hk : p.1 = k
    · rw [← hk, lookupDict_dictInsert_self]
      have hbeq : (p.1 == k) = true := by simpa using hk
      simp [lastValueIn, List.find?, hbeq, ← hk]
    · rw [lookupDict_dictInsert_ne _ _ _ _ (Ne.symm hk)]
      have hbeq : (p.1 == k) = false := by simpa using hk
      simp [lastValueIn, List.find?, hbeq] at ih ⊢
      exact ih

theorem mem_keys_buildDict (l : List (String × ℚ)) (a : String) :
    a ∈ (buildDict l).map Prod.fst ↔ a ∈ l.map Prod.fst := by
  induction l using List.reverseRecOn with
  | nil => simp [buildDict]
  | append_singleton l p ih =>
    rw [buildDict_concat]
    rw [mem_keys_dictInsert]
    simp [ih]

theorem nodup_keys_buildDict (l : List (String × ℚ)) :
    ((buildDict l).map Prod.fst).Nodup := by
  induction l using List.reverseRecOn with
  | nil => simp [buildDict]
  | append_singleton l p ih =>
    rw [buildDict_concat]
    exact nodup_keys_dictInsert _ _ _ ih

theorem mem_buildDict_sub (l : List (String × ℚ)) (p : String × ℚ) :
    p ∈ buildDict l → p ∈ l := by
  induction l using List.reverseRecOn with
  | nil => intro hp; simp [buildDict] at hp
  | append_singleton l q ih =>
    intro hp
    rw [buildDict_concat] at hp
    rcases mem_dictInsert_sub _ _ _ _ hp with hm | heq
    · exact List.mem_append_left _ (ih hm)
    · rw [heq]
      exact List.mem_append_right _ (by simp)

/-- The dict built from the pairs has one entry per distinct key. -/
theorem length_buildDict (l : List (String × ℚ)) :
    (buildDict l).length = (l.map Prod.fst).dedup.length := by
  have h1 : ((buildDict l).map Prod.fst).Nodup := nodup_keys_buildDict l
  have h2 : ((l.map Prod.fst).dedup).Nodup := List.nodup_dedup _
  have h3 : ∀ a, a ∈ (buildDict l).map Prod.fst ↔ a ∈ (l.map Prod.fst).dedup := by
    intro a
    rw [List.mem_dedup]
    exact mem_keys_buildDict l a
  have hp : List.Perm ((buildDict l).map Prod.fst) ((l.map Prod.fst).dedup) :=
    (List.perm_ext_iff_of_nodup h1 h2).mpr h3
  have := hp.length_eq
  simpa using this

/-! ### Run-level helper lemmas -/

theorem sasquatch_start_exit_zero (env : SasquatchBenchmarkProcessor.Env) (u : String)
    (samples : List (String × ℚ))
    (h1 : env.kafkaApiUrl = some u)
    (h2 : SasquatchBenchmarkProcessor.collect_metric_values env.benchmarksFile
      (SasquatchBenchmarkProcessor.parse_cmd_args env) = .ok samples) :
    (SasquatchBenchmarkProcessor.start env).exitCode = 0 := by
  unfold SasquatchBenchmarkProcessor.start
  rw [h1, h2]
  rcases env.clusterIdOutcome with e | cid
  · rfl
  · rcases create_kafka_topic env.topicGetOutcome env.createPostOutcome with ⟨n, r⟩
    rcases r with _ | e
    · rcases emitAll env.emitOutcome samples 0 with ⟨k, r2⟩
      rfl
    · rfl

theorem metrics_start_exit_zero (env : MetricsProcessor.Env) (u p m : String)
    (samples : List (String × ℚ))
    (h1 : env.sasquatchRestProxyUrl = some u)
    (h2 : env.projectName = some p)
    (h3 : env.metricArg = some m)
    (h4 : MetricsProcessor.extract_metric_values env.benchmarksFile m = .ok samples) :
    (MetricsProcessor.start env).exitCode = 0 := by
  unfold MetricsProcessor.start MetricsProcessor.parse_cmdline_args
  simp only [h1, h2, h3, h4]
  rcases env.clusterIdOutcome with e | cid
  · rfl
  · rcases create_kafka_topic env.topicGetOutcome env.createPostOutcome with ⟨n, r⟩
    rcases r with _ | e
    · rcases emitAll env.emitOutcome samples 0 with ⟨k, r2⟩
      rfl
    · rfl

theorem sasquatch_start_emissions_nil (env : SasquatchBenchmarkProcessor.Env) (u : String)
    (h1 : env.kafkaApiUrl = some u)
    (h2 : SasquatchBenchmarkProcessor.collect_metric_values env.benchmarksFile
      (SasquatchBenchmarkProcessor.parse_cmd_args env) = .ok []) :
    (SasquatchBenchmarkProcessor.start env).emissions = 0 := by
  unfold SasquatchBenchmarkProcessor.start
  rw [h1, h2]
  rcases env.clusterIdOutcome with e | cid
  · rfl
  · rcases create_kafka_topic env.topicGetOutcome env.createPostOutcome with ⟨n, r⟩
    rcases r with _ | e
    · rfl
    · rfl

theorem metrics_start_emissions_nil (env : MetricsProcessor.Env) (u p m : String)
    (h1 : env.sasquatchRestProxyUrl = some u)
    (h2 : env.projectName = some p)
    (h3 : env.metricArg = some m)
    (h4 : MetricsProcessor.extract_metric_values env.benchmarksFile m = .ok []) :
    (MetricsProcessor.start env).emissions = 0 := by
  unfold MetricsProcessor.start MetricsProcessor.parse_cmdline_args
  simp only [h1, h2, h3, h4]
  rcases env.clusterIdOutcome with e | cid
  · rfl
  · rcases create_kafka_topic env.topicGetOutcome env.createPostOutcome with ⟨n, r⟩
    rcases r with _ | e
    · rfl
    · rfl

theorem sasquatch_start_extraction_error (env : SasquatchBenchmarkProcessor.Env) (u : String)
    (e : PyError)
    (h1 : env.kafkaApiUrl = some u)
    (h2 : SasquatchBenchmarkProcessor.collect_metric_values env.benchmarksFile
      (SasquatchBenchmarkProcessor.parse_cmd_args env) = .error e) :
    SasquatchBenchmarkProcessor.start env = ⟨1, none, 0, 0⟩ := by
  unfold SasquatchBenchmarkProcessor.start
  rw [h1, h2]

theorem metrics_start_extraction_error (env : MetricsProcessor.Env) (u p m : String)
    (e : PyError)
    (h1 : env.sasquatchRestProxyUrl = some u)
    (h2 : env.projectName = some p)
    (h3 : env.metricArg = some m)
    (h4 : MetricsProcessor.extract_metric_values env.benchmarksFile m = .error e) :
    MetricsProcessor.start env = ⟨1, none, 0, 0⟩ := by
  unfold MetricsProcessor.start MetricsProcessor.parse_cmdline_args
  simp only [h1, h2, h3, h4]

theorem sasquatch_start_config_missing (env : SasquatchBenchmarkProcessor.Env)
    (h : env.kafkaApiUrl = none) :
    SasquatchBenchmarkProcessor.start env = ⟨1, none, 0, 0⟩ := by
  unfold SasquatchBenchmarkProcessor.start
  rw [h]

theorem metrics_start_config_missing (env : MetricsProcessor.Env)
    (h : env.sasquatchRestProxyUrl = none ∨ env.projectName = none) :
    MetricsProcessor.start env = ⟨1, none, 0, 0⟩ := by
  unfold MetricsProcessor.start
  rcases h with h | h
  · rw [h]
  · rw [h]
    rcases env.sasquatchRestProxyUrl with _ | u
    · rfl
    · rfl

theorem collect_metric_values_of_absent (doc : List BenchmarkRecord) (m : Option String)
    (h : ∀ r ∈ doc, hasMetric m r.stats = false) :
    SasquatchBenchmarkProcessor.collect_metric_values (.ok doc) m = .ok [] := by
  have hf : doc.filter (fun r => hasMetric m r.stats) = [] := by
    rw [List.filter_eq_nil_iff]
    intro a ha
    simp [h a ha]
  simp only [SasquatchBenchmarkProcessor.collect_metric_values, hf]
  rfl

theorem extract_metric_values_of_absent (doc : List BenchmarkRecord) (m : String)
    (h : ∀ r ∈ doc, hasMetric (some m) r.stats = false) :
    MetricsProcessor.extract_metric_values (.ok doc) m = .ok [] := by
  have hf : doc.filter (fun r => hasMetric (some m) r.stats) = [] := by
    rw [List.filter_eq_nil_iff]
    intro a ha
    simp [h a ha]
  simp only [MetricsProcessor.extract_metric_values, hf]
  rfl

/-- The map-based extraction is the dict comprehension over the pairs the
list-based extraction produces. -/
theorem extract_eq_buildDict_of_collect (doc : List BenchmarkRecord) (m : String)
    (l : List (String × ℚ))
    (h : SasquatchBenchmarkProcessor.collect_metric_values (.ok doc) (some m) = .ok l) :
    MetricsProcessor.extract_metric_values (.ok doc) m = .ok (buildDict l) := by
  have h2 : pairsOf (some m) (doc.filter (fun r => hasMetric (some m) r.stats)) = .ok l := h
  simp only [MetricsProcessor.extract_metric_values, h2]

/-! ### Concrete documents and environments -/

/-- The end-to-end example document: modA has a "mean" stat, modB only "max". -/
def docA : List BenchmarkRecord :=
  [⟨"modA", [("mean", .num (3/2))]⟩, ⟨"modB", [("max", .num 2)]⟩]

/-- A document with two qualifying entries sharing the module name "mod". -/
def docDup : List BenchmarkRecord :=
  [⟨"mod", [("mean", .num 1)]⟩, ⟨"mod", [("mean", .num 2)]⟩]

/-- A document whose "mean" stat is present but not numeric-coercible. -/
def docBad : List BenchmarkRecord :=
  [⟨"modA", [("mean", .nonNumeric)]⟩]

/-- An extract_metrics.py environment with full configuration and a
healthy backend. -/
def sampleEnv (metricArg : Option String)
    (file : Except PyError (List BenchmarkRecord)) : SasquatchBenchmarkProcessor.Env :=
  ⟨some "https://proxy", metricArg, file, .ok "cluster-1", .ok 404, .ok 201, fun _ => .ok ()⟩

/-- A metrics.py environment with full configuration and a healthy backend. -/
def sampleMEnv (metricArg : Option String)
    (file : Except PyError (List BenchmarkRecord)) : MetricsProcessor.Env :=
  ⟨some "https://proxy", some "proj", metricArg, file, .ok "cluster-1", .ok 404, .ok 201,
    fun _ => .ok ()⟩

/-- An extract_metrics.py environment whose KAFKA_API_URL is missing. -/
def noConfigEnv : SasquatchBenchmarkProcessor.Env :=
  ⟨none, some "mean", .ok [], .ok "cluster-1", .ok 404, .ok 201, fun _ => .ok ()⟩

/-- A metrics.py environment whose SASQUATCH_REST_PROXY_URL is missing. -/
def noConfigMEnv : MetricsProcessor.Env :=
  ⟨none, some "proj", some "mean", .ok [], .ok "cluster-1", .ok 404, .ok 201, fun _ => .ok ()⟩

/-! ### Claims -/

/-- C1 (counterexample): on a document with two qualifying entries that
share the module name "mod", the map-based `extract_metric_values`
produces 1 sample while 2 entries contain the metric key, so the claimed
count equality fails for the extraction step. -/
theorem C1_map_count_counterexample :
    ¬ ((MetricsProcessor.extract_metric_values (.ok docDup) "mean").toOption.map List.length
      = some ((docDup.filter (fun r => hasMetric (some "mean") r.stats)).length)) := by
  decide

/-- C1 (amended): when extraction succeeds, the list-based variant yields
exactly one sample per entry whose stats contains the metric key, while
the map-based variant yields exactly one sample per DISTINCT module name
among those entries. -/
theorem C1_sample_counts (doc : List BenchmarkRecord) (m : String) (l : List (String × ℚ))
    (h : SasquatchBenchmarkProcessor.collect_metric_values (.ok doc) (some m) = .ok l) :
    l.length = (doc.filter (fun r => hasMetric (some m) r.stats)).length ∧
    MetricsProcessor.extract_metric_values (.ok doc) m = .ok (buildDict l) ∧
    (buildDict l).length = (l.map Prod.fst).dedup.length := by
  have h2 : pairsOf (some m) (doc.filter (fun r => hasMetric (some m) r.stats)) = .ok l := h
  exact ⟨pairsOf_length _ _ _ h2, extract_eq_buildDict_of_collect doc m l h,
    length_buildDict l⟩

theorem C1_sample_counts_witness :
    (SasquatchBenchmarkProcessor.collect_metric_values (.ok docDup) (some "mean")
      = .ok [("mod", 1), ("mod", 2)]) ∧
    ([("mod", (1:ℚ)), ("mod", 2)].length
        = (docDup.filter (fun r => hasMetric (some "mean") r.stats)).length ∧
      MetricsProcessor.extract_metric_values (.ok docDup) "mean"
        = .ok (buildDict [("mod", 1), ("mod", 2)]) ∧
      (buildDict [("mod", (1:ℚ)), ("mod", 2)]).length
        = ([("mod", (1:ℚ)), ("mod", 2)].map Prod.fst).dedup.length) :=
  ⟨by rfl, C1_sample_counts docDup "mean" [("mod", 1), ("mod", 2)] (by rfl)⟩

theorem sasquatch_start_printed_cluster_error (env : SasquatchBenchmarkProcessor.Env)
    (u : String) (samples : List (String × ℚ)) (e : PyError)
    (h1 : env.kafkaApiUrl = some u)
    (h2 : SasquatchBenchmarkProcessor.collect_metric_values env.benchmarksFile
      (SasquatchBenchmarkProcessor.parse_cmd_args env) = .ok samples)
    (he : env.clusterIdOutcome = .error e) :
    (SasquatchBenchmarkProcessor.start env).printed = some e := by
  unfold SasquatchBenchmarkProcessor.start
  rw [h1, h2, he]

theorem metrics_start_printed_cluster_error (env : MetricsProcessor.Env)
    (u p m : String) (samples : List (String × ℚ)) (e : PyError)
    (h1 : env.sasquatchRestProxyUrl = some u)
    (h2 : env.projectName = some p)
    (h3 : env.metricArg = some m)
    (h4 : MetricsProcessor.extract_metric_values env.benchmarksFile m = .ok samples)
    (he : env.clusterIdOutcome = .error e) :
    (MetricsProcessor.start env).printed = some e := by
  unfold MetricsProcessor.start MetricsProcessor.parse_cmdline_args
  simp only [h1, h2, h3, h4, he]

theorem sasquatch_start_printed_create_error (env : SasquatchBenchmarkProcessor.Env)
    (u cid : String) (samples : List (String × ℚ)) (n : Nat) (e : PyError)
    (h1 : env.kafkaApiUrl = some u)
    (h2 : SasquatchBenchmarkProcessor.collect_metric_values env.benchmarksFile
      (SasquatchBenchmarkProcessor.parse_cmd_args env) = .ok samples)
    (hok : env.clusterIdOutcome = .ok cid)
    (hcr : create_kafka_topic env.topicGetOutcome env.createPostOutcome = (n, some e)) :
    (SasquatchBenchmarkProcessor.start env).printed = some e := by
  unfold SasquatchBenchmarkProcessor.start
  rw [h1, h2, hok, hcr]

theorem sasquatch_start_printed_emit_error (env : SasquatchBenchmarkProcessor.Env)
    (u cid : String) (samples : List (String × ℚ)) (n k : Nat) (e : PyError)
    (h1 : env.kafkaApiUrl = some u)
    (h2 : SasquatchBenchmarkProcessor.collect_metric_values env.benchmarksFile
      (SasquatchBenchmarkProcessor.parse_cmd_args env) = .ok samples)
    (hok : env.clusterIdOutcome = .ok cid)
    (hcr : create_kafka_topic env.topicGetOutcome env.createPostOutcome = (n, none))
    (hem : emitAll env.emitOutcome samples 0 = (k, some e)) :
    (SasquatchBenchmarkProcessor.start env).printed = some e := by
  unfold SasquatchBenchmarkProcessor.start
  simp only [h1, h2, hok, hcr, hem]

theorem metrics_start_printed_create_error (env : MetricsProcessor.Env)
    (u p m cid : String) (samples : List (String × ℚ)) (n : Nat) (e : PyError)
    (h1 : env.sasquatchRestProxyUrl = some u)
    (h2 : env.projectName = some p)
    (h3 : env.metricArg = some m)
    (h4 : MetricsProcessor.extract_metric_values env.benchmarksFile m = .ok samples)
    (hok : env.clusterIdOutcome = .ok cid)
    (hcr : create_kafka_topic env.topicGetOutcome env.createPostOutcome = (n, some e)) :
    (MetricsProcessor.start env).printed = some e := by
  unfold MetricsProcessor.start MetricsProcessor.parse_cmdline_args
  simp only [h1, h2, h3, h4, hok, hcr]

theorem metrics_start_printed_emit_error (env : MetricsProcessor.Env)
    (u p m cid : String) (samples : List (String × ℚ)) (n k : Nat) (e : PyError)
    (h1 : env.sasquatchRestProxyUrl = some u)
    (h2 : env.projectName = some p)
    (h3 : env.metricArg = some m)
    (h4 : MetricsProcessor.extract_metric_values env.benchmarksFile m = .ok samples)
    (hok : env.clusterIdOutcome = .ok cid)
    (hcr : create_kafka_topic env.topicGetOutcome env.createPostOutcome = (n, none))
    (hem : emitAll env.emitOutcome samples 0 = (k, some e)) :
    (MetricsProcessor.start env).printed = some e := by
  unfold MetricsProcessor.start MetricsProcessor.parse_cmdline_args
  simp only [h1, h2, h3, h4, hok, hcr, hem]

/-- C2: with configuration present and extraction successful, both runs
exit 0 no matter what happens inside the guarded publish block, and every
exception raised inside that block — by the cluster-id lookup, by topic
creation (transport error or bad status), or by an emission — surfaces
only as the printed-and-swallowed error of the run. -/
theorem C2_publish_errors_swallowed (env : SasquatchBenchmarkProcessor.Env)
    (menv : MetricsProcessor.Env) (u v p m : String)
    (samples msamples : List (String × ℚ))
    (h1 : env.kafkaApiUrl = some u)
    (h2 : SasquatchBenchmarkProcessor.collect_metric_values env.benchmarksFile
      (SasquatchBenchmarkProcessor.parse_cmd_args env) = .ok samples)
    (h3 : menv.sasquatchRestProxyUrl = some v)
    (h4 : menv.projectName = some p)
    (h5 : menv.metricArg = some m)
    (h6 : MetricsProcessor.extract_metric_values menv.benchmarksFile m = .ok msamples) :
    (SasquatchBenchmarkProcessor.start env).exitCode = 0 ∧
    (MetricsProcessor.start menv).exitCode = 0 ∧
    (∀ e, env.clusterIdOutcome = .error e →
      (SasquatchBenchmarkProcessor.start env).printed = some e) ∧
    (∀ cid n e, env.clusterIdOutcome = .ok cid →
      create_kafka_topic env.topicGetOutcome env.createPostOutcome = (n, some e) →
      (SasquatchBenchmarkProcessor.start env).printed = some e) ∧
    (∀ cid n k e, env.clusterIdOutcome = .ok cid →
      create_kafka_topic env.topicGetOutcome env.createPostOutcome = (n, none) →
      emitAll env.emitOutcome samples 0 = (k, some e) →
      (SasquatchBenchmarkProcessor.start env).printed = some e) ∧
    (∀ e, menv.clusterIdOutcome = .error e →
      (MetricsProcessor.start menv).printed = some e) ∧
    (∀ cid n e, menv.clusterIdOutcome = .ok cid →
      create_kafka_topic menv.topicGetOutcome menv.createPostOutcome = (n, some e) →
      (MetricsProcessor.start menv).printed = some e) ∧
    (∀ cid n k e, menv.clusterIdOutcome = .ok cid →
      create_kafka_topic menv.topicGetOutcome menv.createPostOutcome = (n, none) →
      emitAll menv.emitOutcome msamples 0 = (k, some e) →
      (MetricsProcessor.start menv).printed = some e) :=
  ⟨sasquatch_start_exit_zero env u samples h1 h2,
   metrics_start_exit_zero menv v p m msamples h3 h4 h5 h6,
   fun e he => sasquatch_start_printed_cluster_error env u samples e h1 h2 he,
   fun cid n e hok hcr =>
     sasquatch_start_printed_create_error env u cid samples n e h1 h2 hok hcr,
   fun cid n k e hok hcr hem =>
     sasquatch_start_printed_emit_error env u cid samples n k e h1 h2 hok hcr hem,
   fun e he => metrics_start_printed_cluster_error menv v p m msamples e h3 h4 h5 h6 he,
   fun cid n e hok hcr =>
     metrics_start_printed_create_error menv v p m cid msamples n e h3 h4 h5 h6 hok hcr,
   fun cid n k e hok hcr hem =>
     metrics_start_printed_emit_error menv v p m cid msamples n k e h3 h4 h5 h6 hok hcr hem⟩

theorem C2_publish_errors_swallowed_witness :
    ((sampleEnv (some "mean") (.ok docA)).kafkaApiUrl = some "https://proxy") ∧
    (SasquatchBenchmarkProcessor.collect_metric_values
        (sampleEnv (some "mean") (.ok docA)).benchmarksFile
        (SasquatchBenchmarkProcessor.parse_cmd_args (sampleEnv (some "mean") (.ok docA)))
      = .ok [("modA", 3/2)]) ∧
    ((sampleMEnv (some "mean") (.ok docA)).sasquatchRestProxyUrl = some "https://proxy") ∧
    ((sampleMEnv (some "mean") (.ok docA)).projectName = some "proj") ∧
    ((sampleMEnv (some "mean") (.ok docA)).metricArg = some "mean") ∧
    (MetricsProcessor.extract_metric_values
        (sampleMEnv (some "mean") (.ok docA)).benchmarksFile "mean"
      = .ok [("modA", 3/2)]) ∧
    ((SasquatchBenchmarkProcessor.start (sampleEnv (some "mean") (.ok docA))).exitCode = 0 ∧
      (MetricsProcessor.start (sampleMEnv (some "mean") (.ok docA))).exitCode = 0 ∧
      (∀ e, (sampleEnv (some "mean") (.ok docA)).clusterIdOutcome = .error e →
        (SasquatchBenchmarkProcessor.start (sampleEnv (some "mean") (.ok docA))).printed
          = some e) ∧
      (∀ cid n e, (sampleEnv (some "mean") (.ok docA)).clusterIdOutcome = .ok cid →
        create_kafka_topic (sampleEnv (some "mean") (.ok docA)).topicGetOutcome
          (sampleEnv (some "mean") (.ok docA)).createPostOutcome = (n, some e) →
        (SasquatchBenchmarkProcessor.start (sampleEnv (some "mean") (.ok docA))).printed
          = some e) ∧
      (∀ cid n k e, (sampleEnv (some "mean") (.ok docA)).clusterIdOutcome = .ok cid →
        create_kafka_topic (sampleEnv (some "mean") (.ok docA)).topicGetOutcome
          (sampleEnv (some "mean") (.ok docA)).createPostOutcome = (n, none) →
        emitAll (sampleEnv (some "mean") (.ok docA)).emitOutcome [("modA", 3/2)] 0
          = (k, some e) →
        (SasquatchBenchmarkProcessor.start (sampleEnv (some "mean") (.ok docA))).printed
          = some e) ∧
      (∀ e, (sampleMEnv (some "mean") (.ok docA)).clusterIdOutcome = .error e →
        (MetricsProcessor.start (sampleMEnv (some "mean") (.ok docA))).printed = some e) ∧
      (∀ cid n e, (sampleMEnv (some "mean") (.ok docA)).clusterIdOutcome = .ok cid →
        create_kafka_topic (sampleMEnv (some "mean") (.ok docA)).topicGetOutcome
          (sampleMEnv (some "mean") (.ok docA)).createPostOutcome = (n, some e) →
        (MetricsProcessor.start (sampleMEnv (some "mean") (.ok docA))).printed = some e) ∧
      (∀ cid n k e, (sampleMEnv (some "mean") (.ok docA)).clusterIdOutcome = .ok cid →
        create_kafka_topic (sampleMEnv (some "mean") (.ok docA)).topicGetOutcome
          (sampleMEnv (some "mean") (.ok docA)).createPostOutcome = (n, none) →
        emitAll (sampleMEnv (some "mean") (.ok docA)).emitOutcome [("modA", 3/2)] 0
          = (k, some e) →
        (MetricsProcessor.start (sampleMEnv (some "mean") (.ok docA))).printed = some e)) :=
  ⟨rfl, by rfl, rfl, rfl, rfl, by rfl,
   C2_publish_errors_swallowed (sampleEnv (some "mean") (.ok docA))
     (sampleMEnv (some "mean") (.ok docA)) "https://proxy" "https://proxy" "proj" "mean"
     [("modA", 3/2)] [("modA", 3/2)] rfl (by rfl) rfl rfl rfl (by rfl)⟩

/-- C3: every entry whose stats contains the metric with a
numeric-coercible value contributes the sample (entry name, float of that
value) to the list-based output, and every sample of the map-based output
arises in exactly this way from some such entry. -/
theorem C3_sample_values (doc : List BenchmarkRecord) (m : String) (r : BenchmarkRecord)
    (sv : StatValue) (q : ℚ) (l d : List (String × ℚ))
    (hr : r ∈ doc)
    (hsv : lookupStat (some m) r.stats = some sv)
    (hq : floatOfStat sv = some q)
    (hl : SasquatchBenchmarkProcessor.collect_metric_values (.ok doc) (some m) = .ok l)
    (hd : MetricsProcessor.extract_metric_values (.ok doc) m = .ok d) :
    (r.name, q) ∈ l ∧
    ∀ s ∈ d, ∃ r2, r2 ∈ doc ∧ s.1 = r2.name ∧
      ∃ sv2, lookupStat (some m) r2.stats = some sv2 ∧ floatOfStat sv2 = some s.2 := by
  have h2 : pairsOf (some m) (doc.filter (fun r => hasMetric (some m) r.stats)) = .ok l := hl
  constructor
  · exact pairsOf_mem (some m) _ l r sv q
      (List.mem_filter.mpr ⟨hr, lookupStat_hasMetric _ _ _ hsv⟩) hsv hq h2
  · intro s hs
    have hd2 : d = buildDict l := by
      have hh := extract_eq_buildDict_of_collect doc m l hl
      exact Except.ok.inj (hd.symm.trans hh)
    rw [hd2] at hs
    rcases pairsOf_mem_inv (some m) _ l s h2 (mem_buildDict_sub l s hs) with
      ⟨r2, hr2, hn, sv2, hsv2, hq2⟩
    exact ⟨r2, (List.mem_filter.mp hr2).1, hn, sv2, hsv2, hq2⟩

theorem C3_sample_values_witness :
    ((⟨"modA", [("mean", .num (3/2))]⟩ : BenchmarkRecord) ∈ docA) ∧
    (lookupStat (some "mean") [("mean", StatValue.num (3/2))] = some (.num (3/2))) ∧
    (floatOfStat (.num (3/2)) = some (3/2)) ∧
    (SasquatchBenchmarkProcessor.collect_metric_values (.ok docA) (some "mean")
      = .ok [("modA", 3/2)]) ∧
    (MetricsProcessor.extract_metric_values (.ok docA) "mean" = .ok [("modA", 3/2)]) ∧
    ((("modA", (3/2 : ℚ)) ∈ [("modA", (3/2 : ℚ))]) ∧
      ∀ s ∈ [("modA", (3/2 : ℚ))], ∃ r2, r2 ∈ docA ∧ s.1 = r2.name ∧
        ∃ sv2, lookupStat (some "mean") r2.stats = some sv2 ∧ floatOfStat sv2 = some s.2) :=
  ⟨by simp [docA], by rfl, by rfl, by rfl, by rfl,
   C3_sample_values docA "mean" ⟨"modA", [("mean", .num (3/2))]⟩ (.num (3/2)) (3/2)
     [("modA", 3/2)] [("modA", 3/2)] (by simp [docA]) (by rfl) (by rfl) (by rfl) (by rfl)⟩

/-- C4: `create_kafka_topic` is a no-op when the topic-existence check
succeeds; otherwise it issues exactly one create request and raises an
error iff the create response status is neither 200 nor 201; and two
consecutive provisioner runs starting without the topic, with a
successful create status, issue exactly one create request in total. -/
theorem C4_create_topic_idempotent (st1 st2 cst c : Nat)
    (h1 : check_if_topic_exists st1 = true)
    (h2 : check_if_topic_exists st2 = false)
    (hc : c = 200 ∨ c = 201) :
    create_kafka_topic (.ok st1) (.ok cst) = (0, none) ∧
    (create_kafka_topic (.ok st2) (.ok cst)).1 = 1 ∧
    ((create_kafka_topic (.ok st2) (.ok cst)).2 ≠ none ↔ ¬(cst = 200 ∨ cst = 201)) ∧
    (provisionRun false c).2 = 1 ∧
    (provisionRun (provisionRun false c).1 c).2 = 0 ∧
    (provisionRun false c).2 + (provisionRun (provisionRun false c).1 c).2 = 1 := by
  have hstat : (c == 200 || c == 201) = true := by
    rcases hc with rfl | rfl <;> rfl
  refine ⟨?_, ?_, ?_, ?_, ?_, ?_⟩
  · simp [create_kafka_topic, h1]
  · by_cases hcst : (cst == 200 || cst == 201) = true <;>
      simp [create_kafka_topic, h2, hcst]
  · by_cases h200 : cst = 200
    · subst h200; simp [create_kafka_topic, h2]
    · by_cases h201 : cst = 201
      · subst h201; simp [create_kafka_topic, h2]
      · have hb : (cst == 200 || cst == 201) = false := by simp [h200, h201]
        simp [create_kafka_topic, h2, hb, h200, h201]
  · simp [provisionRun, create_kafka_topic, backendTopicStatus,
      check_if_topic_exists, hstat]
  · simp [provisionRun, create_kafka_topic, backendTopicStatus,
      check_if_topic_exists, hstat]
  · simp [provisionRun, create_kafka_topic, backendTopicStatus,
      check_if_topic_exists, hstat]

theorem C4_create_topic_idempotent_witness :
    (check_if_topic_exists 200 = true) ∧
    (check_if_topic_exists 404 = false) ∧
    ((201 : Nat) = 200 ∨ (201 : Nat) = 201) ∧
    (create_kafka_topic (.ok 200) (.ok 500) = (0, none) ∧
      (create_kafka_topic (.ok 404) (.ok 500)).1 = 1 ∧
      ((create_kafka_topic (.ok 404) (.ok 500)).2 ≠ none ↔ ¬((500 : Nat) = 200 ∨ (500 : Nat) = 201)) ∧
      (provisionRun false 201).2 = 1 ∧
      (provisionRun (provisionRun false 201).1 201).2 = 0 ∧
      (provisionRun false 201).2 + (provisionRun (provisionRun false 201).1 201).2 = 1) :=
  ⟨by decide, by decide, by decide,
   C4_create_topic_idempotent 200 404 500 201 (by decide) (by decide) (by decide)⟩

/-- C5: the topic-existence checks of both scripts return true exactly
when the HTTP status of the per-topic GET is 200. -/
theorem C5_topic_existence_is_200 (st : Nat) :
    (check_if_topic_exists st = true ↔ st = 200) ∧
    (check_if_kafka_topic_exists st = true ↔ st = 200) := by
  constructor <;> simp [check_if_topic_exists, check_if_kafka_topic_exists]

/-- C6: on a document whose qualifying entries include a repeated module
name, the list-based variant keeps one sample per qualifying entry, while
the map-based variant keeps exactly one sample per distinct module name,
bound to the value of the LAST qualifying entry with that name. -/
theorem C6_duplicate_names_policy (doc : List BenchmarkRecord) (m : String)
    (l d : List (String × ℚ))
    (hl : SasquatchBenchmarkProcessor.collect_metric_values (.ok doc) (some m) = .ok l)
    (hd : MetricsProcessor.extract_metric_values (.ok doc) m = .ok d)
    (hdup : ¬ (l.map Prod.fst).Nodup) :
    l.length = (doc.filter (fun r => hasMetric (some m) r.stats)).length ∧
    (d.map Prod.fst).Nodup ∧
    (∀ k, lookupDict d k = lastValueIn l k) := by
  have h2 : pairsOf (some m) (doc.filter (fun r => hasMetric (some m) r.stats)) = .ok l := hl
  have hd2 : d = buildDict l :=
    Except.ok.inj (hd.symm.trans (extract_eq_buildDict_of_collect doc m l hl))
  refine ⟨pairsOf_length _ _ _ h2, ?_, ?_⟩
  · rw [hd2]
    exact nodup_keys_buildDict l
  · intro k
    rw [hd2]
    exact lookupDict_buildDict l k

theorem C6_duplicate_names_policy_witness :
    (SasquatchBenchmarkProcessor.collect_metric_values (.ok docDup) (some "mean")
      = .ok [("mod", 1), ("mod", 2)]) ∧
    (MetricsProcessor.extract_metric_values (.ok docDup) "mean" = .ok [("mod", 2)]) ∧
    (¬ ([("mod", (1:ℚ)), ("mod", 2)].map Prod.fst).Nodup) ∧
    ([("mod", (1:ℚ)), ("mod", 2)].length
        = (docDup.filter (fun r => hasMetric (some "mean") r.stats)).length ∧
      ([("mod", (2:ℚ))].map Prod.fst).Nodup ∧
      (∀ k, lookupDict [("mod", (2:ℚ))] k = lastValueIn [("mod", 1), ("mod", 2)] k)) :=
  ⟨by rfl, by rfl, by decide,
   C6_duplicate_names_policy docDup "mean" [("mod", 1), ("mod", 2)] [("mod", 2)]
     (by rfl) (by rfl) (by decide)⟩

/-- C7: when the metric is absent from every entry's stats, both
extractions succeed with the empty collection and the runs attempt zero
emissions. -/
theorem C7_absent_metric_empty (doc : List BenchmarkRecord) (m : String)
    (env : SasquatchBenchmarkProcessor.Env) (menv : MetricsProcessor.Env) (u v p : String)
    (habs : ∀ r ∈ doc, hasMetric (some m) r.stats = false)
    (h1 : env.kafkaApiUrl = some u)
    (h2 : env.metricArg = some m)
    (h3 : env.benchmarksFile = .ok doc)
    (h4 : menv.sasquatchRestProxyUrl = some v)
    (h5 : menv.projectName = some p)
    (h6 : menv.metricArg = some m)
    (h7 : menv.benchmarksFile = .ok doc) :
    SasquatchBenchmarkProcessor.collect_metric_values (.ok doc) (some m) = .ok [] ∧
    MetricsProcessor.extract_metric_values (.ok doc) m = .ok [] ∧
    (SasquatchBenchmarkProcessor.start env).emissions = 0 ∧
    (MetricsProcessor.start menv).emissions = 0 := by
  have hc := collect_metric_values_of_absent doc (some m) habs
  have he := extract_metric_values_of_absent doc m habs
  refine ⟨hc, he, ?_, ?_⟩
  · apply sasquatch_start_emissions_nil env u h1
    unfold SasquatchBenchmarkProcessor.parse_cmd_args
    rw [h3, h2]
    exact hc
  · apply metrics_start_emissions_nil menv v p m h4 h5 h6
    rw [h7]
    exact he

theorem C7_absent_metric_empty_witness :
    (∀ r ∈ docA, hasMetric (some "p95") r.stats = false) ∧
    ((sampleEnv (some "p95") (.ok docA)).kafkaApiUrl = some "https://proxy") ∧
    ((sampleEnv (some "p95") (.ok docA)).metricArg = some "p95") ∧
    ((sampleEnv (some "p95") (.ok docA)).benchmarksFile = .ok docA) ∧
    ((sampleMEnv (some "p95") (.ok docA)).sasquatchRestProxyUrl = some "https://proxy") ∧
    ((sampleMEnv (some "p95") (.ok docA)).projectName = some "proj") ∧
    ((sampleMEnv (some "p95") (.ok docA)).metricArg = some "p95") ∧
    ((sampleMEnv (some "p95") (.ok docA)).benchmarksFile = .ok docA) ∧
    (SasquatchBenchmarkProcessor.collect_metric_values (.ok docA) (some "p95") = .ok [] ∧
      MetricsProcessor.extract_metric_values (.ok docA) "p95" = .ok [] ∧
      (SasquatchBenchmarkProcessor.start (sampleEnv (some "p95") (.ok docA))).emissions = 0 ∧
      (MetricsProcessor.start (sampleMEnv (some "p95") (.ok docA))).emissions = 0) :=
  ⟨by decide, rfl, rfl, rfl, rfl, rfl, rfl, rfl,
   C7_absent_metric_empty docA "p95" (sampleEnv (some "p95") (.ok docA))
     (sampleMEnv (some "p95") (.ok docA)) "https://proxy" "https://proxy" "proj"
     (by decide) rfl rfl rfl rfl rfl rfl rfl⟩

/-- C8: extraction-stage failures (missing environment configuration,
missing or malformed input file, non-numeric stat value) occur before the
guarded publish block: nothing is caught, the run exits 1 with zero
create requests and zero emissions. -/
theorem C8_extraction_failures_fatal
    (env0 : SasquatchBenchmarkProcessor.Env) (menv0 : MetricsProcessor.Env)
    (env : SasquatchBenchmarkProcessor.Env) (menv : MetricsProcessor.Env)
    (u v p m : String) (e e2 : PyError)
    (h0 : env0.kafkaApiUrl = none)
    (hm0 : menv0.sasquatchRestProxyUrl = none ∨ menv0.projectName = none)
    (h1 : env.kafkaApiUrl = some u)
    (h2 : SasquatchBenchmarkProcessor.collect_metric_values env.benchmarksFile
      (SasquatchBenchmarkProcessor.parse_cmd_args env) = .error e)
    (h3 : menv.sasquatchRestProxyUrl = some v)
    (h4 : menv.projectName = some p)
    (h5 : menv.metricArg = some m)
    (h6 : MetricsProcessor.extract_metric_values menv.benchmarksFile m = .error e2) :
    SasquatchBenchmarkProcessor.start env0 = ⟨1, none, 0, 0⟩ ∧
    MetricsProcessor.start menv0 = ⟨1, none, 0, 0⟩ ∧
    SasquatchBenchmarkProcessor.start env = ⟨1, none, 0, 0⟩ ∧
    MetricsProcessor.start menv = ⟨1, none, 0, 0⟩ :=
  ⟨sasquatch_start_config_missing env0 h0,
   metrics_start_config_missing menv0 hm0,
   sasquatch_start_extraction_error env u e h1 h2,
   metrics_start_extraction_error menv v p m e2 h3 h4 h5 h6⟩

theorem C8_extraction_failures_fatal_witness :
    (noConfigEnv.kafkaApiUrl = none) ∧
    (noConfigMEnv.sasquatchRestProxyUrl = none ∨ noConfigMEnv.projectName = none) ∧
    ((sampleEnv (some "mean") (.ok docBad)).kafkaApiUrl = some "https://proxy") ∧
    (SasquatchBenchmarkProcessor.collect_metric_values
        (sampleEnv (some "mean") (.ok docBad)).benchmarksFile
        (SasquatchBenchmarkProcessor.parse_cmd_args (sampleEnv (some "mean") (.ok docBad)))
      = .error .valueError) ∧
    ((sampleMEnv (some "mean") (.error .parseError)).sasquatchRestProxyUrl
      = some "https://proxy") ∧
    ((sampleMEnv (some "mean") (.error .parseError)).projectName = some "proj") ∧
    ((sampleMEnv (some "mean") (.error .parseError)).metricArg = some "mean") ∧
    (MetricsProcessor.extract_metric_values
        (sampleMEnv (some "mean") (.error .parseError)).benchmarksFile "mean"
      = .error .parseError) ∧
    (SasquatchBenchmarkProcessor.start noConfigEnv = ⟨1, none, 0, 0⟩ ∧
      MetricsProcessor.start noConfigMEnv = ⟨1, none, 0, 0⟩ ∧
      SasquatchBenchmarkProcessor.start (sampleEnv (some "mean") (.ok docBad))
        = ⟨1, none, 0, 0⟩ ∧
      MetricsProcessor.start (sampleMEnv (some "mean") (.error .parseError))
        = ⟨1, none, 0, 0⟩) :=
  ⟨rfl, Or.inl rfl, rfl, by rfl, rfl, rfl, rfl, by rfl,
   C8_extraction_failures_fatal noConfigEnv noConfigMEnv
     (sampleEnv (some "mean") (.ok docBad)) (sampleMEnv (some "mean") (.error .parseError))
     "https://proxy" "https://proxy" "proj" "mean" .valueError .parseError
     rfl (Or.inl rfl) rfl (by rfl) rfl rfl rfl (by rfl)⟩

/-- C9: metrics.py declares --metric as required; invoking it without the
flag makes argparse exit the process with code 2 (non-zero), before any
extraction, create request or emission. -/
theorem C9_metric_arg_required (menv : MetricsProcessor.Env) (v p : String)
    (h1 : menv.sasquatchRestProxyUrl = some v)
    (h2 : menv.projectName = some p)
    (h3 : menv.metricArg = none) :
    MetricsProcessor.start menv = ⟨2, none, 0, 0⟩ ∧
    (MetricsProcessor.start menv).exitCode ≠ 0 := by
  have hr : MetricsProcessor.start menv = ⟨2, none, 0, 0⟩ := by
    unfold MetricsProcessor.start MetricsProcessor.parse_cmdline_args
    simp only [h1, h2, h3]
  refine ⟨hr, ?_⟩
  rw [hr]
  decide

theorem C9_metric_arg_required_witness :
    ((sampleMEnv none (.ok docA)).sasquatchRestProxyUrl = some "https://proxy") ∧
    ((sampleMEnv none (.ok docA)).projectName = some "proj") ∧
    ((sampleMEnv none (.ok docA)).metricArg = none) ∧
    (MetricsProcessor.start (sampleMEnv none (.ok docA)) = ⟨2, none, 0, 0⟩ ∧
      (MetricsProcessor.start (sampleMEnv none (.ok docA))).exitCode ≠ 0) :=
  ⟨rfl, rfl, rfl,
   C9_metric_arg_required (sampleMEnv none (.ok docA)) "https://proxy" "proj" rfl rfl rfl⟩

/-- C10: extract_metrics.py with --metric omitted parses the metric as
None; extraction completes without error and yields zero samples (None
matches no string key), so the run attempts zero emissions and exits 0. -/
theorem C10_optional_metric_none (env : SasquatchBenchmarkProcessor.Env)
    (doc : List BenchmarkRecord) (u : String)
    (h1 : env.kafkaApiUrl = some u)
    (h2 : env.metricArg = none)
    (h3 : env.benchmarksFile = .ok doc) :
    SasquatchBenchmarkProcessor.parse_cmd_args env = none ∧
    SasquatchBenchmarkProcessor.collect_metric_values (.ok doc) none = .ok [] ∧
    (SasquatchBenchmarkProcessor.start env).exitCode = 0 ∧
    (SasquatchBenchmarkProcessor.start env).emissions = 0 := by
  have hc : SasquatchBenchmarkProcessor.collect_metric_values (.ok doc) none = .ok [] :=
    collect_metric_values_of_absent doc none (fun r _ => hasMetric_none r.stats)
  have harg : SasquatchBenchmarkProcessor.parse_cmd_args env = none := h2
  have hcoll : SasquatchBenchmarkProcessor.collect_metric_values env.benchmarksFile
      (SasquatchBenchmarkProcessor.parse_cmd_args env) = .ok [] := by
    unfold SasquatchBenchmarkProcessor.parse_cmd_args
    rw [h3, h2]
    exact hc
  exact ⟨harg, hc, sasquatch_start_exit_zero env u [] h1 hcoll,
    sasquatch_start_emissions_nil env u h1 hcoll⟩

theorem C10_optional_metric_none_witness :
    ((sampleEnv none (.ok docA)).kafkaApiUrl = some "https://proxy") ∧
    ((sampleEnv none (.ok docA)).metricArg = none) ∧
    ((sampleEnv none (.ok docA)).benchmarksFile = .ok docA) ∧
    (SasquatchBenchmarkProcessor.parse_cmd_args (sampleEnv none (.ok docA)) = none ∧
      SasquatchBenchmarkProcessor.collect_metric_values (.ok docA) none = .ok [] ∧
      (SasquatchBenchmarkProcessor.start (sampleEnv none (.ok docA))).exitCode = 0 ∧
      (SasquatchBenchmarkProcessor.start (sampleEnv none (.ok docA))).emissions = 0) :=
  ⟨rfl, rfl, rfl,
   C10_optional_metric_none (sampleEnv none (.ok docA)) docA "https://proxy" rfl rfl rfl⟩
